import Mathlib

/-!
Verification of the KPI-derivation logic of `supply_chain_analysis.py`
(supply-chain inventory analysis).

The script derives per-row inventory metrics (days of stock, stockout
risk, movement type), per-row supplier metrics (OTD rate, lead-time
variance), and a per-supplier scorecard (means of the monthly metrics,
a weighted performance score, a rating).  All numeric values in the
script are Python/numpy floats; we embed them as rationals, which are
exact on every value the script manipulates away from float-rounding
ties (none of the concrete inputs used below sit on such a tie).
Rounding in the script (`round`, `Series.round`) is round-half-to-even,
embedded exactly as `roundHalfEven` below.
-/

namespace SupplyChain

/-- Stockout-risk classification values (source line 68). -/
inductive Risk where
  | High
  | Medium
  | Low
deriving DecidableEq, Repr

/-- Movement-type classification values (source line 69). -/
inductive MovementType where
  | Fast
  | Medium
  | Slow
deriving DecidableEq, Repr

/-- Supplier rating values (source line 185; the star glyphs dropped). -/
inductive Rating where
  | Excellent
  | Good
  | NeedsImprovement
deriving DecidableEq, Repr

/-- Python round-half-to-even of a rational to an integer: `round(x)` /
numpy `.round()` semantics (exact on the rational embedding). -/
def roundHalfEven (q : ℚ) : ℤ :=
  if q - ⌊q⌋ < 1/2 then ⌊q⌋
  else if q - ⌊q⌋ > 1/2 then ⌊q⌋ + 1
  else if ⌊q⌋ % 2 = 0 then ⌊q⌋ else ⌊q⌋ + 1

/-- `round(x, 1)` of the script (source line 79). -/
def round1 (q : ℚ) : ℚ := (roundHalfEven (q * 10) : ℚ) / 10

/-- `round(x, 2)` / `Series.round(2)` of the script (lines 126, 178, 183). -/
def round2 (q : ℚ) : ℚ := (roundHalfEven (q * 100) : ℚ) / 100

/-- Source line 67:
`days_of_stock = current_stock / avg_daily_sales if avg_daily_sales > 0 else 0`. -/
def days_of_stock (current_stock avg_daily_sales : ℚ) : ℚ :=
  if avg_daily_sales > 0 then current_stock / avg_daily_sales else 0

/-- Source line 68:
`stockout_risk = 'High' if days_of_stock < 7 else ('Medium' if days_of_stock < 14 else 'Low')`. -/
def stockout_risk (d : ℚ) : Risk :=
  if d < 7 then Risk.High else if d < 14 then Risk.Medium else Risk.Low

/-- Source line 69:
`movement = 'Fast' if avg_daily_sales > 10 else ('Medium' if avg_daily_sales > 5 else 'Slow')`. -/
def movement (avg_daily_sales : ℚ) : MovementType :=
  if avg_daily_sales > 10 then MovementType.Fast
  else if avg_daily_sales > 5 then MovementType.Medium
  else MovementType.Slow

/-- The stored `Days_of_Stock` field (source line 79):
`round(days_of_stock, 1)`. -/
def Days_of_Stock (current_stock avg_daily_sales : ℚ) : ℚ :=
  round1 (days_of_stock current_stock avg_daily_sales)

/-- Result of a numpy float computation that can leave the finite range:
a finite rational, positive infinity, or NaN.  Dividing a nonnegative
numerator by zero yields `inf` (numerator > 0) or `nan` (numerator = 0);
the script suppresses the accompanying RuntimeWarning (line 33), so no
exception is raised. -/
inductive PyFloat where
  | fin (q : ℚ)
  | inf
  | nan
deriving DecidableEq, Repr

/-- Source line 126:
`df_sup['OTD_Rate'] = (df_sup['On_Time_Deliveries'] / df_sup['Total_Orders'] * 100).round(2)`.
Integer-Series true division; no guard for `Total_Orders == 0`.  numpy
float semantics: `x / 0` is `inf` for `x > 0` and `nan` for `x = 0`;
`inf * 100 = inf`, `nan * 100 = nan`, and `.round(2)` fixes `inf`/`nan`. -/
def OTD_Rate (on_time_deliveries total_orders : ℕ) : PyFloat :=
  if total_orders = 0 then
    (if on_time_deliveries = 0 then PyFloat.nan else PyFloat.inf)
  else
    PyFloat.fin (round2 ((on_time_deliveries : ℚ) / (total_orders : ℚ) * 100))

/-- Source line 111: `on_time = int(orders * np.random.uniform(0.65, 0.98))`.
The completion fraction is a parameter here; `int()` truncates toward
zero, which on the nonnegative product equals the floor. -/
def on_time (orders : ℕ) (frac : ℚ) : ℤ := ⌊(orders : ℚ) * frac⌋

/-- Source lines 179-183 (before the final `.round(2)`):
`Avg_OTD_Rate * 0.5 - Avg_Defect_Rate * 3 - Avg_Lead_Time_Variance * 2`. -/
def performance_score (avg_otd avg_defect avg_lead_variance : ℚ) : ℚ :=
  avg_otd * 0.5 - avg_defect * 3 - avg_lead_variance * 2

/-- Source line 185:
`'Excellent' if x > 40 else ('Good' if x > 30 else 'Needs Improvement')`. -/
def rating (x : ℚ) : Rating :=
  if x > 40 then Rating.Excellent
  else if x > 30 then Rating.Good
  else Rating.NeedsImprovement

/-- The per-month supplier fields consumed by the scorecard aggregation
(source lines 173-177): `OTD_Rate`, `Defect_Rate_Pct`,
`Lead_Time_Variance` of one `df_sup` row. -/
structure SupplierMonthlyRecord where
  otd_rate : ℚ
  defect_rate : ℚ
  lead_time_variance : ℚ
deriving DecidableEq, Repr

/-- Arithmetic mean of a list of rationals (`pandas` `'mean'` aggregation). -/
def mean (l : List ℚ) : ℚ := l.sum / (l.length : ℚ)

/-- Source lines 173-178: the per-supplier aggregation
`groupby('Supplier').agg(Avg_OTD_Rate=('OTD_Rate','mean'), ...).round(2)`
restricted to one supplier's rows: the three rounded means
(Avg_OTD_Rate, Avg_Defect_Rate, Avg_Lead_Time_Variance). -/
def scorecardAgg (l : List SupplierMonthlyRecord) : ℚ × ℚ × ℚ :=
  (round2 (mean (l.map (fun r => r.otd_rate))),
   round2 (mean (l.map (fun r => r.defect_rate))),
   round2 (mean (l.map (fun r => r.lead_time_variance))))

/-- Source lines 179-183: the stored `Performance_Score` column of the
scorecard, computed from the already-rounded mean columns and rounded
again to two decimals. -/
def Performance_Score (l : List SupplierMonthlyRecord) : ℚ :=
  round2 (performance_score (scorecardAgg l).1 (scorecardAgg l).2.1 (scorecardAgg l).2.2)

/-- A one-supplier row set on which the stored score differs from the
score of the exact (unrounded) means: defect rates 1, 1, 2 have mean
4/3, which rounds to 1.33. -/
def sampleRows : List SupplierMonthlyRecord :=
  [⟨0, 1, 0⟩, ⟨0, 1, 0⟩, ⟨0, 2, 0⟩]

end SupplyChain

namespace SupplyChain

/-- Claim C3: `stockout_risk d` is High exactly when `d < 7`, Medium
exactly when `7 ≤ d < 14`, Low exactly when `14 ≤ d`; at the boundaries,
`stockout_risk 7 = Medium` and `stockout_risk 14 = Low`. -/
theorem C3_stockout_risk_buckets :
    (∀ d : ℚ, (stockout_risk d = Risk.High ↔ d < 7) ∧
      (stockout_risk d = Risk.Medium ↔ 7 ≤ d ∧ d < 14) ∧
      (stockout_risk d = Risk.Low ↔ 14 ≤ d)) ∧
    stockout_risk 7 = Risk.Medium ∧ stockout_risk 14 = Risk.Low := by
  refine ⟨fun d => ⟨?_, ?_, ?_⟩, by decide, by decide⟩
  · unfold stockout_risk
    split_ifs with h1 h2
    · exact iff_of_true rfl h1
    · exact iff_of_false (by decide) h1
    · exact iff_of_false (by decide) h1
  · unfold stockout_risk
    split_ifs with h1 h2
    · exact iff_of_false (by decide) (fun h => absurd h1 (not_lt.mpr h.1))
    · exact iff_of_true rfl ⟨not_lt.mp h1, h2⟩
    · exact iff_of_false (by decide) (fun h => h2 h.2)
  · unfold stockout_risk
    split_ifs with h1 h2
    · exact iff_of_false (by decide) (fun h => absurd h1 (not_lt.mpr (by linarith)))
    · exact iff_of_false (by decide) (fun h => absurd h2 (not_lt.mpr h))
    · exact iff_of_true rfl (not_lt.mp h2)

/-- Claim C4: `movement s` is Fast exactly when `s > 10`, Medium exactly
when `5 < s ≤ 10`, Slow exactly when `s ≤ 5`. -/
theorem C4_movement_buckets (s : ℚ) :
    (movement s = MovementType.Fast ↔ 10 < s) ∧
    (movement s = MovementType.Medium ↔ 5 < s ∧ s ≤ 10) ∧
    (movement s = MovementType.Slow ↔ s ≤ 5) := by
  refine ⟨?_, ?_, ?_⟩
  · unfold movement
    split_ifs with h1 h2
    · exact iff_of_true rfl h1
    · exact iff_of_false (by decide) h1
    · exact iff_of_false (by decide) h1
  · unfold movement
    split_ifs with h1 h2
    · exact iff_of_false (by decide) (fun h => absurd h1 (not_lt.mpr h.2))
    · exact iff_of_true rfl ⟨h2, not_lt.mp h1⟩
    · exact iff_of_false (by decide) (fun h => h2 h.1)
  · unfold movement
    split_ifs with h1 h2
    · exact iff_of_false (by decide) (fun h => absurd h1 (not_lt.mpr (by linarith)))
    · exact iff_of_false (by decide) (fun h => absurd h2 (not_lt.mpr h))
    · exact iff_of_true rfl (not_lt.mp h2)

/-- Claim C2, as stated, is false: at `current_stock = 0`,
`avg_daily_sales = 5` the code yields movement Slow (5 is not `> 5`),
not Medium. -/
theorem C2_counterexample :
    ¬ (days_of_stock 0 5 = 0 ∧ stockout_risk (days_of_stock 0 5) = Risk.High ∧
       movement 5 = MovementType.Medium) := by
  intro h
  have hm := h.2.2
  norm_num [movement] at hm
  exact MovementType.noConfusion hm

/-- Claim C2 (amended): for `current_stock = 0`, `avg_daily_sales = 5`
the derivation yields `days_of_stock = 0`, stockout risk High, and
movement type Slow. -/
theorem C2_scenario :
    days_of_stock 0 5 = 0 ∧ stockout_risk (days_of_stock 0 5) = Risk.High ∧
    movement 5 = MovementType.Slow := by
  norm_num [days_of_stock, stockout_risk, movement]

/-- Claim C1 (the code lacks the specified guard): at
`on_time_deliveries = 1`, `total_orders = 0` the unguarded division of
source line 126 yields `inf` (and `nan` at numerator 0), not the
fallback value 0; it does not raise, since numpy float division only
warns, but no 0 fallback is returned. -/
theorem C1_otd_rate_zero_total :
    OTD_Rate 1 0 = PyFloat.inf ∧ OTD_Rate 0 0 = PyFloat.nan ∧
    OTD_Rate 1 0 ≠ PyFloat.fin 0 := by
  refine ⟨rfl, rfl, ?_⟩
  intro h
  exact PyFloat.noConfusion h

/-- Claim C5: `days_of_stock` is total; on the data-model domain
(`avg_daily_sales ≥ 0`) it is the quotient for nonzero
`avg_daily_sales`, and 0 at `avg_daily_sales = 0`, where the stockout
risk is then High. -/
theorem C5_days_of_stock_total (c s : ℚ) (hs : 0 ≤ s) :
    (s ≠ 0 → days_of_stock c s = c / s) ∧
    (s = 0 → days_of_stock c s = 0 ∧ stockout_risk (days_of_stock c s) = Risk.High) := by
  constructor
  · intro hne
    unfold days_of_stock
    rw [if_pos (lt_of_le_of_ne hs (Ne.symm hne))]
  · intro h0
    subst h0
    norm_num [days_of_stock, stockout_risk]

/-- Witness for C5 at `current_stock = 10` with `avg_daily_sales = 2`
and with `avg_daily_sales = 0`. -/
theorem C5_witness :
    days_of_stock 10 2 = 10 / 2 ∧ days_of_stock 10 0 = 0 ∧
    stockout_risk (days_of_stock 10 0) = Risk.High :=
  ⟨(C5_days_of_stock_total 10 2 (by norm_num)).1 (by norm_num),
   ((C5_days_of_stock_total 10 0 (le_refl 0)).2 rfl).1,
   ((C5_days_of_stock_total 10 0 (le_refl 0)).2 rfl).2⟩

/-- Claim C6: the performance score is the fixed weighted formula, the
rating buckets are Excellent on `(40, ∞)`, Good on `(30, 40]`, Needs
Improvement on `(-∞, 30]`, and the scenario `avg_otd = 90`,
`avg_defect = 2`, `avg_lead_variance = 1` scores 37, rated Good. -/
theorem C6_performance_score_and_rating :
    (∀ a b c : ℚ, performance_score a b c = a * 0.5 - b * 3 - c * 2) ∧
    (∀ x : ℚ, (rating x = Rating.Excellent ↔ 40 < x) ∧
      (rating x = Rating.Good ↔ 30 < x ∧ x ≤ 40) ∧
      (rating x = Rating.NeedsImprovement ↔ x ≤ 30)) ∧
    performance_score 90 2 1 = 37 ∧ rating 37 = Rating.Good := by
  refine ⟨fun a b c => rfl, fun x => ⟨?_, ?_, ?_⟩,
    by norm_num [performance_score], by norm_num [rating]⟩
  · unfold rating
    split_ifs with h1 h2
    · exact iff_of_true rfl h1
    · exact iff_of_false (by decide) h1
    · exact iff_of_false (by decide) h1
  · unfold rating
    split_ifs with h1 h2
    · exact iff_of_false (by decide) (fun h => absurd h1 (not_lt.mpr h.2))
    · exact iff_of_true rfl ⟨h2, not_lt.mp h1⟩
    · exact iff_of_false (by decide) (fun h => h2 h.1)
  · unfold rating
    split_ifs with h1 h2
    · exact iff_of_false (by decide) (fun h => absurd h1 (not_lt.mpr (by linarith)))
    · exact iff_of_false (by decide) (fun h => absurd h2 (not_lt.mpr h))
    · exact iff_of_true rfl (not_lt.mp h2)

/-- Claim C7: with the completion fraction drawn from `[0.65, 0.98)`,
the generated `on_time` never exceeds `orders`. -/
theorem C7_on_time_le_total (orders : ℕ) (f : ℚ)
    (h1 : 0.65 ≤ f) (h2 : f < 0.98) :
    on_time orders f ≤ (orders : ℤ) := by
  unfold on_time
  have hf1 : f ≤ 1 := le_of_lt (lt_of_lt_of_le h2 (by norm_num))
  have hle : (orders : ℚ) * f ≤ (orders : ℚ) :=
    mul_le_of_le_one_right (by positivity) hf1
  calc ⌊(orders : ℚ) * f⌋ ≤ ⌊(orders : ℚ)⌋ := Int.floor_mono hle
    _ = (orders : ℤ) := Int.floor_natCast orders

/-- Witness for C7 at `orders = 40`, fraction `3/4`. -/
theorem C7_witness :
    (0.65 : ℚ) ≤ 3/4 ∧ (3/4 : ℚ) < 0.98 ∧ on_time 40 (3/4) ≤ (40 : ℤ) :=
  ⟨by norm_num, by norm_num,
   C7_on_time_le_total 40 (3/4) (by norm_num) (by norm_num)⟩

/-- Claim C8: the scorecard aggregation of one supplier's monthly rows
is invariant under permutation of the rows. -/
theorem C8_scorecard_perm_invariant (l l2 : List SupplierMonthlyRecord)
    (h : l.Perm l2) : scorecardAgg l = scorecardAgg l2 := by
  have h1 := (h.map (fun r => r.otd_rate)).sum_eq
  have h2 := (h.map (fun r => r.defect_rate)).sum_eq
  have h3 := (h.map (fun r => r.lead_time_variance)).sum_eq
  have hl := h.length_eq
  simp [scorecardAgg, mean, h1, h2, h3, hl]

/-- Witness for C8 on a two-row set and its transposition. -/
theorem C8_witness :
    (([⟨90, 2, 1⟩, ⟨80, 3, 0⟩] : List SupplierMonthlyRecord).Perm
      [⟨80, 3, 0⟩, ⟨90, 2, 1⟩]) ∧
    scorecardAgg [⟨90, 2, 1⟩, ⟨80, 3, 0⟩] =
      scorecardAgg [⟨80, 3, 0⟩, ⟨90, 2, 1⟩] :=
  ⟨List.Perm.swap _ _ _,
   C8_scorecard_perm_invariant _ _ (List.Perm.swap _ _ _)⟩

/-- Claim C9: the stored risk comes from the exact quotient while the
stored `Days_of_Stock` is the quotient rounded to one decimal, so at
`current_stock = 174`, `avg_daily_sales = 25` (exact quotient 6.96) the
stored `Days_of_Stock` is 7 and the stored risk High, yet the piecewise
rule applied to the stored `Days_of_Stock` gives Medium. -/
theorem C9_stored_days_vs_stored_risk :
    days_of_stock 174 25 = 696/100 ∧
    Days_of_Stock 174 25 = 7 ∧
    stockout_risk (days_of_stock 174 25) = Risk.High ∧
    stockout_risk (Days_of_Stock 174 25) = Risk.Medium := by
  have hq : days_of_stock 174 25 = 696/100 := by
    norm_num [days_of_stock]
  have hf : ⌊(696 / 100 * 10 : ℚ)⌋ = 69 := by
    norm_num [Int.floor_eq_iff]
  have hd : Days_of_Stock 174 25 = 7 := by
    rw [Days_of_Stock, hq, round1, roundHalfEven, hf]
    norm_num
  refine ⟨hq, hd, ?_, ?_⟩
  · rw [hq]
    norm_num [stockout_risk]
  · rw [hd]
    norm_num [stockout_risk]

/-- Claim C10: the stored `Performance_Score` is the weighted formula
applied to the two-decimal-rounded means, rounded again to two decimals;
on `sampleRows` (defect rates 1, 1, 2, all else 0) this differs from the
formula applied to the exact means, so the stored score is not the
exact-means score. -/
theorem C10_stored_score_uses_rounded_means :
    (∀ l : List SupplierMonthlyRecord,
      Performance_Score l =
        round2 (performance_score
          (round2 (mean (l.map (fun r => r.otd_rate))))
          (round2 (mean (l.map (fun r => r.defect_rate))))
          (round2 (mean (l.map (fun r => r.lead_time_variance)))))) ∧
    Performance_Score sampleRows ≠
      round2 (performance_score
        (mean (sampleRows.map (fun r => r.otd_rate)))
        (mean (sampleRows.map (fun r => r.defect_rate)))
        (mean (sampleRows.map (fun r => r.lead_time_variance)))) := by
  constructor
  · intro l
    rfl
  · have hm : mean (sampleRows.map (fun r => r.defect_rate)) = 4/3 := by
      norm_num [sampleRows, mean]
    have hm0 : mean (sampleRows.map (fun r => r.otd_rate)) = 0 := by
      norm_num [sampleRows, mean]
    have hm0' : mean (sampleRows.map (fun r => r.lead_time_variance)) = 0 := by
      norm_num [sampleRows, mean]
    have hr0 : round2 0 = 0 := by
      norm_num [round2, roundHalfEven]
    have hf43 : ⌊(4 / 3 * 100 : ℚ)⌋ = 133 := by
      norm_num [Int.floor_eq_iff]
    have hr43 : round2 (4/3) = 133/100 := by
      rw [round2, roundHalfEven, hf43]
      norm_num
    have hlhs : Performance_Score sampleRows = -399/100 := by
      have hagg : scorecardAgg sampleRows = (0, 133/100, 0) := by
        rw [scorecardAgg, hm, hm0, hm0', hr0, hr43]
      rw [Performance_Score, hagg]
      have hs : performance_score 0 (133/100) 0 = -399/100 := by
        norm_num [performance_score]
      rw [hs, round2, roundHalfEven]
      norm_num [Int.floor_intCast, Int.floor_eq_iff]
    have hrhs : round2 (performance_score
        (mean (sampleRows.map (fun r => r.otd_rate)))
        (mean (sampleRows.map (fun r => r.defect_rate)))
        (mean (sampleRows.map (fun r => r.lead_time_variance)))) = -4 := by
      rw [hm, hm0, hm0']
      have hs : performance_score 0 (4/3) 0 = -4 := by
        norm_num [performance_score]
      rw [hs, round2, roundHalfEven]
      norm_num [Int.floor_eq_iff]
    rw [hlhs, hrhs]
    norm_num

end SupplyChain
